import Mathlib

/-!
Verification of the Ethereum mempool swap monitor (`backend/server.py`).

This file is a shallow embedding of the pure/algorithmic core of the program:
the Uniswap V2 pool-address derivation (`get_pool_address`), the token-metadata
resolver (`get_token_info`), the swap classifier and calldata decoder
(`parse_swap_transaction`), the Telegram formatter/dispatcher
(`format_telegram_message`, `send_telegram_message`) and the per-transaction
pipeline step (`process_transaction`) together with its stats counters
(`MonitorStats`).

Modelling conventions:
* Python strings are Lean `String`s; all character-level work happens on
  `String.data` (a `List Char`), which matches Python's code-point semantics
  for the ASCII data handled here.
* Python `bytes` values are `List Nat` with every element `< 256`.
* Python integers are `Nat` (all integers in scope are non-negative).
* Python floats produced by `a / 10**18` are modelled exactly by `PyFloat`,
  an unreduced numerator/denominator pair holding the exact quotient; the
  decimal rendering `str(x)` of a float is below the abstraction level of the
  model and is supplied as an oracle where only display formatting needs it.
* External effects (HTTP metadata providers, MongoDB insertion, the Telegram
  API, wall-clock timestamps) are inputs: each pipeline step takes an
  explicit record of the outcomes the environment would produce.
* Fallible Python operations (`bytes.fromhex`, `int(s, 16)`, attribute
  lookup) return `Option`/`Except`; a Python `try/except` is a `match` on
  that result.
-/

set_option maxRecDepth 40000

/-- Exact value of a Python float arising as `a / b` (numerator/denominator
kept unreduced; in the program `b` is always a power of ten). -/
structure PyFloat where
  num : Nat
  den : Nat
deriving Repr, DecidableEq

/-- Python float literal `0.0` (and the decimal string `"0"` used as an
amount default), as the exact value zero. -/
def PyFloat.zero : PyFloat := ⟨0, 1⟩

/-- Truth value of `x > 0` on a modelled float (denominators are positive
powers of ten throughout the program). -/
def PyFloat.isPos (x : PyFloat) : Bool := 0 < x.num

/-- Value of a hexadecimal digit character, upper or lower case (`None` when
the character is not a hex digit). -/
def hexVal (c : Char) : Option Nat :=
  if '0' ≤ c ∧ c ≤ '9' then some (c.toNat - '0'.toNat)
  else if 'a' ≤ c ∧ c ≤ 'f' then some (c.toNat - 'a'.toNat + 10)
  else if 'A' ≤ c ∧ c ≤ 'F' then some (c.toNat - 'A'.toNat + 10)
  else none

/-- Model of Python `bytes.fromhex`: pairs of hex digits become bytes; an odd
number of digits or a non-hex character raises `ValueError`, modelled as
`none`.  (Python additionally skips ASCII whitespace between pairs; no input
in this program contains whitespace.) -/
def bytesFromHex? : List Char → Option (List Nat)
  | [] => some []
  | [_] => none
  | c1 :: c2 :: rest =>
    match hexVal c1, hexVal c2, bytesFromHex? rest with
    | some h, some l, some bs => some ((16 * h + l) :: bs)
    | _, _, _ => none

/-- Model of Python `int(s, 16)` applied to a non-empty all-hex-digit string:
folds the digits big-endian.  `none` models the `ValueError` raised on an
empty string or a non-hex character.  (Python also tolerates surrounding
whitespace, a sign and underscores; no caller in this program produces
those.) -/
def hexDigitsVal? (l : List Char) : Option Nat :=
  if l.isEmpty then none
  else
    l.foldl
      (fun acc c =>
        match acc, hexVal c with
        | some a, some d => some (16 * a + d)
        | _, _ => none)
      (some 0)

/-- Model of Python `int(s, 16)`: an optional `0x`/`0X` prefix followed by hex
digits. -/
def hexStrToNat? : List Char → Option Nat
  | '0' :: 'x' :: rest => hexDigitsVal? rest
  | '0' :: 'X' :: rest => hexDigitsVal? rest
  | l => hexDigitsVal? l

/-- Model of Python `int.from_bytes(bs, 'big')`. -/
def bytesToNat (bs : List Nat) : Nat := bs.foldl (fun a b => 256 * a + b) 0

/-- Big-endian byte string of a natural number, truncated to `k` bytes (the
low-order `k` bytes of `n`, most significant first). -/
def natToBytesBE : Nat → Nat → List Nat
  | 0, _ => []
  | k + 1, n => natToBytesBE k (n / 256) ++ [n % 256]

/-- Lower-case hex digit character for a value `< 16`. -/
def hexDigitChar (n : Nat) : Char :=
  if n < 10 then Char.ofNat ('0'.toNat + n) else Char.ofNat ('a'.toNat + (n - 10))

/-- Two lower-case hex digit characters of one byte (model of Python's
`bytes.hex()` per byte). -/
def byteToHexChars (b : Nat) : List Char := [hexDigitChar (b / 16 % 16), hexDigitChar (b % 16)]

/-- Model of Python `bytes.hex()`: lower-case hex characters of a byte
string. -/
def bytesToHexChars (bs : List Nat) : List Char := (bs.map byteToHexChars).flatten

/-- Model of Python `s.lower()` (ASCII data only). -/
def pyLower (s : String) : String := ⟨s.data.map Char.toLower⟩

/-- Model of Python `s.upper()` (ASCII data only). -/
def pyUpper (s : String) : String := ⟨s.data.map Char.toUpper⟩

/-- Model of Python `b[-n:]` / `s[-n:]`: the last `n` elements (the whole list
when it is shorter). -/
def takeLast (n : Nat) (l : List Char) : List Char := l.drop (l.length - n)

/-- Byte-list version of `takeLast`, for Python `bytes` slices like
`token_bytes[-20:]`. -/
def takeLastB (n : Nat) (l : List Nat) : List Nat := l.drop (l.length - n)

/-- Model of Python `s.zfill(n)`: left-pad with `'0'` to length `n` (no-op on
longer strings). -/
def zfill (n : Nat) (l : List Char) : List Char := List.replicate (n - l.length) '0' ++ l

/-- Model of Python `s.startswith("0x")`. -/
def startsWith0x (s : String) : Bool := s.data.take 2 = ['0', 'x']

/-- Lexicographic code-point comparison of character lists, the order Python
uses for `str < str`. -/
def charListLt : List Char → List Char → Bool
  | [], [] => false
  | [], _ :: _ => true
  | _ :: _, [] => false
  | a :: as, b :: bs =>
    if a.val < b.val then true
    else if b.val < a.val then false
    else charListLt as bs

/-- Model of Python `a < b` on strings. -/
def pyStrLt (a b : String) : Bool := charListLt a.data b.data

/-- Exceptions a modelled Python step can raise. -/
inductive PyExc where
  | attributeError
  | valueError
deriving Repr, DecidableEq

/-! ## Data model (server.py lines 45–123)

`TransactionData` and `MonitorStats` keep the source field names.  The
pydantic-generated `id` (a fresh UUID) and `timestamp` (wall-clock time of
detection) are generation-time nondeterminism never examined by any claim and
are not carried in the model; `uptime_seconds` likewise. -/

/-- Raw mempool transaction as delivered in a subscription frame
(`params.result`): hash, from, to, input calldata and value, all hex strings.
A field missing from the JSON object corresponds to the empty string, the
default the code supplies via `dict.get(k, "")` (and `"0"` for `value`, which
the caller of the model passes explicitly). -/
structure TxData where
  hash : String
  sender : String
  «to» : String
  input : String
  value : String
deriving Repr, DecidableEq

/-- Central pipeline record (server.py `TransactionData`).  `amount` and
`token_amount` hold the exact values of the float amounts whose decimal
renderings the program stores. -/
structure TransactionData where
  tx_hash : String
  from_address : String
  to_address : String
  token_address : Option String
  token_symbol : Option String := none
  token_name : Option String := none
  amount : PyFloat
  token_amount : Option PyFloat
  swap_type : String
  pool_address : Option String := none
  dexview_link : Option String := none
deriving Repr, DecidableEq

/-- Pipeline statistics counters (server.py `MonitorStats`). -/
structure MonitorStats where
  total_transactions : Nat
  successful_parses : Nat
  failed_parses : Nat
  telegram_messages_sent : Nat
deriving Repr, DecidableEq

/-- Counters all start at zero (pydantic defaults). -/
def initial_stats : MonitorStats := ⟨0, 0, 0, 0⟩

/-- Registry entry of `UNISWAP_FUNCTION_SIGS`. -/
structure SwapFunctionSig where
  name : String
  inputs : List String
  swap_type : String
deriving Repr, DecidableEq

/-- Uniswap V2 router address constant (server.py line 46). -/
def UNISWAP_V2_ROUTER : String := "0x7a250d5630B4cF539739dF2C5dAcb4c659F2488D"

/-- Static selector registry (server.py lines 49–75), keyed by the first ten
characters of the input calldata. -/
def UNISWAP_FUNCTION_SIGS : List (String × SwapFunctionSig) :=
  [("0x7ff36ab5",
    { name := "swapExactETHForTokens",
      inputs := ["uint256", "address[]", "address", "uint256"],
      swap_type := "buy" }),
   ("0x18cbafe5",
    { name := "swapExactTokensForETH",
      inputs := ["uint256", "uint256", "address[]", "address", "uint256"],
      swap_type := "sell" }),
   ("0x38ed1739",
    { name := "swapExactTokensForTokens",
      inputs := ["uint256", "uint256", "address[]", "address", "uint256"],
      swap_type := "swap" }),
   ("0x1f00ca74",
    { name := "swapExactETHForTokensSupportingFeeOnTransferTokens",
      inputs := ["uint256", "address[]", "address", "uint256"],
      swap_type := "buy" }),
   ("0x791ac947",
    { name := "swapExactTokensForETHSupportingFeeOnTransferTokens",
      inputs := ["uint256", "uint256", "address[]", "address", "uint256"],
      swap_type := "sell" })]

/-- Case-sensitive registry lookup, the model of
`method_id in UNISWAP_FUNCTION_SIGS` / `UNISWAP_FUNCTION_SIGS[method_id]`. -/
def sigLookup (method_id : String) : Option SwapFunctionSig :=
  UNISWAP_FUNCTION_SIGS.lookup method_id

/-- All-zero address string `"0x" + "0" * 40`. -/
def ZERO_ADDR : String := "0x0000000000000000000000000000000000000000"

/-! ## Pool address derivation (server.py lines 125–166) -/

/-- Model of the expression `hashlib.keccak256(data)` at server.py lines 151
and 160.  Python's `hashlib` module has no attribute `keccak256` (it exposes
`sha3_256` and friends, but no keccak variant under any spelling without an
underscore), so evaluating the attribute raises `AttributeError` before any
hashing happens.  The surrounding `except Exception` swallows it. -/
def hashlib_keccak256 (_data : List Nat) : Except PyExc (List Nat) :=
  .error .attributeError

/-- Model of `bytes.fromhex` inside an `Except` computation (raises
`ValueError` on bad input). -/
def pyFromHexE (l : List Char) : Except PyExc (List Nat) :=
  match bytesFromHex? l with
  | some bs => .ok bs
  | none => .error .valueError

/-- WETH mainnet address constant used by `get_pool_address`
(server.py line 132). -/
def WETH_ADDR : String := "0xC02aaA39b223FE8D0A0e5C4F27eAD9083C756Cc2"

/-- Uniswap V2 factory address constant (server.py line 135). -/
def FACTORY_ADDR : String := "0x5C69bEe701ef814a2B6a3EDD4B1652CB9cc5aA6f"

/-- Uniswap V2 init code hash constant (server.py line 154). -/
def INIT_CODE_HASH_HEX : String :=
  "96e8ac4277198ff8b6f785478aa9a39f403cb768dd02cbee326c3e7da348845f"

/-- Model of `get_pool_address` (server.py lines 125–166): sort the pair
`(token, WETH)`, hash the 32-byte-padded sorted pair for the salt, and take
the last twenty bytes of `keccak256(0xff ++ factory ++ salt ++ initCodeHash)`.
Every step runs inside the function's blanket `try/except`, which returns
`None` on any exception.  Because `hashlib.keccak256` raises
`AttributeError` (see `hashlib_keccak256`), the `.ok` branch is unreachable
and the function returns `None` on every input. -/
def get_pool_address (token_address : String) : Option String :=
  if token_address.data.isEmpty then none
  else
    let ta := pyLower token_address
    let wl := pyLower WETH_ADDR
    let token0 := if pyStrLt ta wl then ta else wl
    let token1 := if pyStrLt ta wl then wl else ta
    let body : Except PyExc String := do
      let token0_bytes ← pyFromHexE (zfill 64 (token0.data.drop 2))
      let token1_bytes ← pyFromHexE (zfill 64 (token1.data.drop 2))
      let salt ← hashlib_keccak256 (token0_bytes ++ token1_bytes)
      let init_code_hash ← pyFromHexE INIT_CODE_HASH_HEX.data
      let factory_bytes ← pyFromHexE (FACTORY_ADDR.data.drop 2)
      let digest ← hashlib_keccak256 (255 :: (factory_bytes ++ salt ++ init_code_hash))
      pure ⟨'0' :: 'x' :: bytesToHexChars (takeLastB 20 digest)⟩
    match body with
    | .ok s => some s
    | .error _ => none

/-! ## Token metadata resolver (server.py lines 168–295) -/

/-- Resolved token metadata (the dict returned by `get_token_info`). -/
structure TokenInfo where
  symbol : String
  name : String
  address : String
  decimals : Nat
deriving Repr, DecidableEq

/-- One pair object of a DexScreener response, restricted to the fields the
code reads (`baseToken.address`, `baseToken.symbol`, `baseToken.name`;
missing JSON fields are the empty string, the `dict.get` default). -/
structure DexScreenerPair where
  baseAddress : String
  baseSymbol : String
  baseName : String
deriving Repr, DecidableEq

/-- A DexScreener HTTP response: status code and the `pairs` array. -/
structure DexScreenerResp where
  status : Nat
  pairs : List DexScreenerPair
deriving Repr, DecidableEq

/-- A CoinGecko HTTP response: status code and the `symbol`/`name` fields. -/
structure CoinGeckoResp where
  status : Nat
  symbol : String
  name : String
deriving Repr, DecidableEq

/-- Outcomes of the two external metadata provider calls for one lookup;
`.error` models a request exception or timeout (caught by the per-provider
`try/except`). -/
structure Providers where
  dexscreener : Except Unit DexScreenerResp
  coingecko : Except Unit CoinGeckoResp
deriving Repr

/-- Static well-known-token table (server.py lines 192–206), keyed by
lower-case address. -/
def common_tokens : List (String × TokenInfo) :=
  [("0xdac17f958d2ee523a2206206994597c13d831ec7",
    { symbol := "USDT", name := "Tether USD", address := "", decimals := 6 }),
   ("0xa0b86a33e6441e6d9a2e3c8cf8b7f5b6b7f5b0a6",
    { symbol := "USDC", name := "USD Coin", address := "", decimals := 6 }),
   ("0x6b175474e89094c44da98b954eedeac495271d0f",
    { symbol := "DAI", name := "Dai Stablecoin", address := "", decimals := 18 }),
   ("0x95ad61b0a150d79219dcf64e1e6cc01f0b64c4ce",
    { symbol := "SHIB", name := "Shiba Inu", address := "", decimals := 18 }),
   ("0x2260fac5e5542a773aa44fbcfedf7c193bc2c599",
    { symbol := "WBTC", name := "Wrapped Bitcoin", address := "", decimals := 8 }),
   ("0xc02aaa39b223fe8d0a0e5c4f27ead9083c756cc2",
    { symbol := "WETH", name := "Wrapped Ether", address := "", decimals := 18 }),
   ("0x1f9840a85d5af5bf1d1762f925bdaddc4201f984",
    { symbol := "UNI", name := "Uniswap", address := "", decimals := 18 }),
   ("0x7d1afa7b718fb893db30a3abc0cfc608aacfebb0",
    { symbol := "MATIC", name := "Polygon", address := "", decimals := 18 }),
   ("0xa693b19d2931d498c5b318df961919bb4aee87a5",
    { symbol := "UST", name := "TerraUSD", address := "", decimals := 18 }),
   ("0x4e15361fd6b4bb609fa63c81a2be19d873717870",
    { symbol := "FTM", name := "Fantom", address := "", decimals := 18 }),
   ("0x514910771af9ca656af840dff83e8264ecf986ca",
    { symbol := "LINK", name := "Chainlink", address := "", decimals := 18 }),
   ("0x0000000000085d4780b73119b644ae5ecd22b376",
    { symbol := "TUSD", name := "TrueUSD", address := "", decimals := 18 }),
   ("0x8e870d67f660d95d5be530380d0ec0bd388289e1",
    { symbol := "ANKR", name := "Ankr Network", address := "", decimals := 18 })]

/-- Usable symbol/name extracted from a DexScreener call (server.py lines
219–241): status 200, a non-empty `pairs` array whose first pair's base token
address matches the looked-up address case-insensitively, and a non-empty
upper-cased symbol and non-empty name.  `none` means "try the next provider"
(request failure, bad status, or any check failing). -/
def dexExtract (r : Except Unit DexScreenerResp) (addr : String) : Option (String × String) :=
  match r with
  | .error _ => none
  | .ok resp =>
    if resp.status = 200 then
      match resp.pairs with
      | [] => none
      | pair :: _ =>
        if pyLower pair.baseAddress = addr then
          let symbol := pyUpper pair.baseSymbol
          let name := pair.baseName
          if symbol.data ≠ [] ∧ name.data ≠ [] then some (symbol, name) else none
        else none
    else none

/-- Usable symbol/name extracted from a CoinGecko call (server.py lines
243–264): status 200 and a non-empty upper-cased symbol of at most ten
characters together with a non-empty name. -/
def geckoExtract (r : Except Unit CoinGeckoResp) : Option (String × String) :=
  match r with
  | .error _ => none
  | .ok resp =>
    if resp.status = 200 then
      let symbol := pyUpper resp.symbol
      let name := resp.name
      if symbol.data ≠ [] ∧ name.data ≠ [] ∧ symbol.data.length ≤ 10 then
        some (symbol, name)
      else none
    else none

/-- Model of the symbol-collection loop of server.py lines 271–276: walk the
address characters, append each non-`'0'` character upper-cased, and stop as
soon as four characters have been collected. -/
def symbolCharsLoop : List Char → List Char → List Char
  | acc, [] => acc
  | acc, c :: rest =>
    if c ≠ '0' then
      let acc2 := acc ++ [c.toUpper]
      if 4 ≤ acc2.length then acc2 else symbolCharsLoop acc2 rest
    else symbolCharsLoop acc rest

/-- Deterministic placeholder metadata synthesized from the address when every
provider is exhausted (server.py lines 266–286).  `addr` is the lower-cased
address. -/
def synthPlaceholder (addr : String) : TokenInfo :=
  let addr_without_0x := addr.data.drop 2
  let symbol_chars := symbolCharsLoop [] addr_without_0x
  let symbol_chars :=
    if symbol_chars.length < 4 then (takeLast 6 addr_without_0x).map Char.toUpper
    else symbol_chars
  { symbol := ⟨symbol_chars.take 6⟩,
    name := "Token " ++ String.mk ((takeLast 8 addr_without_0x).map Char.toUpper),
    address := addr,
    decimals := 18 }

/-- Model of `get_token_info` (server.py lines 168–295): native-asset
sentinel, address-format validation, static table, DexScreener, CoinGecko,
deterministic placeholder.  The function's own blanket `try/except` (lines
288–295) is unreachable in the model because every step is total. -/
def get_token_info (token_address : String) (pv : Providers) : TokenInfo :=
  if token_address.data.isEmpty ∨ token_address = ZERO_ADDR then
    { symbol := "ETH", name := "Ethereum", address := ZERO_ADDR, decimals := 18 }
  else if token_address.data.length ≠ 42 ∨ ¬ startsWith0x token_address then
    { symbol := "UNKNOWN", name := "Unknown Token", address := token_address, decimals := 18 }
  else
    let addr := pyLower token_address
    match common_tokens.lookup addr with
    | some ti =>
      { symbol := ti.symbol, name := ti.name, address := addr, decimals := ti.decimals }
    | none =>
      match dexExtract pv.dexscreener addr with
      | some (symbol, name) => { symbol := symbol, name := name, address := addr, decimals := 18 }
      | none =>
        match geckoExtract pv.coingecko with
        | some (symbol, name) =>
          { symbol := symbol, name := name, address := addr, decimals := 18 }
        | none => synthPlaceholder addr

/-! ## Swap classifier and calldata decoder (server.py lines 297–451) -/

/-- The `i`-th 32-byte word of a byte string, as decoded by
`eth_abi.decode(["uint256", ...], ...)` (big-endian). -/
def word (cd : List Nat) (i : Nat) : Nat := bytesToNat ((cd.drop (32 * i)).take 32)

/-- Token address string built from a 32-byte ABI word: `"0x" +
token_bytes[-20:].hex()` (server.py lines 347, 369, 390). -/
def addrOfWordBytes (w : List Nat) : String :=
  ⟨'0' :: 'x' :: bytesToHexChars (takeLastB 20 w)⟩

/-- WETH address in lower case, the value compared against in the heuristic
fallback (server.py line 410). -/
def WETH_LOWER : String := "0xc02aaa39b223fe8d0a0e5c4f27ead9083c756cc2"

/-- Heuristic scan of the raw hex body (server.py lines 405–412): for each
even character offset `i` below `len(data) - 40`, form the candidate
`"0x" + data[i:i+40]` and keep the first one that has 42 characters, starts
with `"0x"` and is not the WETH address, lower-cased. -/
def scanToken (data : List Char) : Option String :=
  (List.range ((data.length - 40 + 1) / 2)).findSome? fun k =>
    let i := 2 * k
    let addr_candidate : String := ⟨'0' :: 'x' :: (data.drop i).take 40⟩
    if addr_candidate.data.length = 42 ∧ startsWith0x addr_candidate then
      if pyLower addr_candidate ≠ WETH_LOWER then some (pyLower addr_candidate) else none
    else none

/-- Result of the calldata-parameter stage of `parse_swap_transaction`
(the values of the locals `token_address`, `amount_str` and
`token_amount_str` after the try/except of server.py lines 325–427). -/
structure DecodedParams where
  token_address : Option String
  amount : PyFloat
  token_amount : Option PyFloat
deriving Repr, DecidableEq

/-- Path-array token extraction of the "buy" branch (server.py lines
339–347): read the path offset from head word 1, check it lies inside the
calldata, read the element count, check the array fits, and reconstruct the
address from path element index 1 (`path_data[64:96]`). -/
def buy_path_token (calldata : List Nat) : Option String :=
  let path_offset := word calldata 1
  if path_offset < calldata.length then
    let path_data := calldata.drop path_offset
    if 32 ≤ path_data.length then
      let path_length := bytesToNat (path_data.take 32)
      if 2 ≤ path_length ∧ 32 + path_length * 32 ≤ path_data.length then
        some (addrOfWordBytes ((path_data.drop 64).take 32))
      else none
    else none
  else none

/-- Path-array token extraction of the "sell" branch (server.py lines
361–369): path offset from head word 2, and the address comes from path
element index 0 (`path_data[32:64]`). -/
def sell_path_token (calldata : List Nat) : Option String :=
  let path_offset := word calldata 2
  if path_offset < calldata.length then
    let path_data := calldata.drop path_offset
    if 64 ≤ path_data.length then
      let path_length := bytesToNat (path_data.take 32)
      if 2 ≤ path_length ∧ 32 + path_length * 32 ≤ path_data.length then
        some (addrOfWordBytes ((path_data.drop 32).take 32))
      else none
    else none
  else none

/-- Path-array token extraction of the token-to-token branch (server.py
lines 383–390): like the sell branch, but without the array-fits check. -/
def swap_path_token (calldata : List Nat) : Option String :=
  let path_offset := word calldata 2
  if path_offset < calldata.length then
    let path_data := calldata.drop path_offset
    if 64 ≤ path_data.length then
      let path_length := bytesToNat (path_data.take 32)
      if 2 ≤ path_length then
        some (addrOfWordBytes ((path_data.drop 32).take 32))
      else none
    else none
  else none

/-- ABI decoding of the parameters after the selector (server.py lines
325–427).  `data` is the input string without the ten-character selector
prefix.  A successful `bytes.fromhex` enters the typed decode (lines
330–392), whose remaining operations are all total (`word calldata i` is the
`i`-th `uint256` produced by `eth_abi.decode`); a `ValueError` from
`bytes.fromhex` is the one reachable exception of the try block and lands in
the heuristic fallback (lines 394–427), whose own operations are total apart
from the guarded `int(data[:64], 16)`. -/
def decode_calldata (swap_type : String) (eth_value : PyFloat) (data : List Char) :
    DecodedParams :=
  match bytesFromHex? data with
  | some calldata =>
    if swap_type = "buy" then
      { token_address := if 128 ≤ calldata.length then buy_path_token calldata else none,
        amount := eth_value, token_amount := none }
    else if swap_type = "sell" then
      if 160 ≤ calldata.length then
        { token_address := sell_path_token calldata,
          amount := ⟨word calldata 1, 10 ^ 18⟩,
          token_amount := some ⟨word calldata 0, 10 ^ 18⟩ }
      else { token_address := none, amount := PyFloat.zero, token_amount := none }
    else
      if 160 ≤ calldata.length then
        { token_address := swap_path_token calldata,
          amount := ⟨word calldata 0, 10 ^ 18⟩,
          token_amount := none }
      else { token_address := none, amount := PyFloat.zero, token_amount := none }
  | none =>
    if swap_type = "buy" ∧ eth_value.isPos then
      let token_address := if 256 ≤ data.length then scanToken data else none
      { token_address := token_address, amount := eth_value, token_amount := none }
    else if swap_type = "sell" then
      let amount :=
        if 64 ≤ data.length then
          match hexStrToNat? (data.take 64) with
          | some amount_wei => (⟨amount_wei, 10 ^ 18⟩ : PyFloat)
          | none => PyFloat.zero
        else PyFloat.zero
      { token_address := none, amount := amount, token_amount := none }
    else { token_address := none, amount := PyFloat.zero, token_amount := none }

/-- Token-address validation (server.py lines 429–434): keep only strings of
exactly 42 characters starting with `"0x"`, and drop the all-zero address. -/
def validate_token_address : Option String → Option String
  | none => none
  | some t =>
    if t.data.length ≠ 42 ∨ ¬ startsWith0x t then none
    else if t = ZERO_ADDR then none
    else some t

/-- Model of `parse_swap_transaction` (server.py lines 297–451): reject short
input, a recipient other than the router (case-insensitively) or an unknown
selector; parse the wei value; decode the calldata parameters with heuristic
fallback; validate the token address; and build the `TransactionData`.
`none` models both explicit `return None` and the outer `except` (reached
when `int(tx_data.get("value", "0"), 16)` raises on a malformed value
field). -/
def parse_swap_transaction (tx : TxData) : Option TransactionData :=
  if tx.input.data.length < 10 then none
  else
    let to_address := pyLower tx.to
    if to_address ≠ pyLower UNISWAP_V2_ROUTER then none
    else
      let method_id : String := ⟨tx.input.data.take 10⟩
      match sigLookup method_id with
      | none => none
      | some func_info =>
        let swap_type := func_info.swap_type
        match hexStrToNat? tx.value.data with
        | none => none
        | some eth_value_wei =>
          let eth_value : PyFloat := ⟨eth_value_wei, 10 ^ 18⟩
          let d := decode_calldata swap_type eth_value (tx.input.data.drop 10)
          some
            { tx_hash := tx.hash,
              from_address := tx.sender,
              to_address := to_address,
              token_address := validate_token_address d.token_address,
              amount := d.amount,
              token_amount := if swap_type = "sell" then d.token_amount else none,
              swap_type := swap_type }

/-! ## Notification formatter and dispatcher (server.py lines 453–568) -/

/-- Display-formatting facts below the model's abstraction level: the decimal
rendering `str(x)` of a Python float, the fixed-point rendering produced by
an `:.4f` format spec, and the wall-clock `strftime('%H:%M:%S')` string. -/
structure FormatOracle where
  floatStr : PyFloat → String
  float4 : PyFloat → String
  timeStr : String

/-- Characters escaped for MarkdownV2 by `escape_md` (server.py line 472). -/
def MD_SPECIAL : List Char :=
  ['_', '*', '[', ']', '(', ')', '~', Char.ofNat 96, '>', '#', '+', '-', '=', '|',
   Char.ofNat 123, Char.ofNat 125, '.', '!']

/-- Model of `escape_md` (server.py lines 471–475): prefix every special
character with a backslash.  The Python original applies one `str.replace`
per special character in sequence; since the inserted backslash is not itself
in the special list, the sequential replaces coincide with this single
pass. -/
def escape_md (s : String) : String :=
  ⟨(s.data.map fun c => if c ∈ MD_SPECIAL then ['\\', c] else [c]).flatten⟩

/-- Model of Python `s.strip()`: remove leading and trailing ASCII
whitespace. -/
def pyStrip (s : String) : String :=
  let ws := fun c => c = ' ' ∨ c = '\n' ∨ c = '\t' ∨ c = '\r'
  ⟨((s.data.dropWhile ws).reverse.dropWhile ws).reverse⟩

/-- Python `f"{a[:10]}...{a[-6:]}"` shortening of an address or hash. -/
def shorten (a : String) : String := ⟨a.data.take 10 ++ "...".data ++ takeLast 6 a.data⟩

/-- Model of `format_telegram_message` (server.py lines 453–539): emoji and
action label from `swap_type`, escaped interpolations, the amount line by
swap kind, and the final `strip()`.  The `except` fallback of lines 516–539
is unreachable in the model because every step of the happy path is total. -/
def format_telegram_message (g : FormatOracle) (transaction : TransactionData)
    (token_info : TokenInfo) : String :=
  let emoji := if transaction.swap_type = "buy" then "🟢"
    else if transaction.swap_type = "sell" then "🔴" else "🔄"
  let action := if transaction.swap_type = "buy" then "ПОКУПКА"
    else if transaction.swap_type = "sell" then "ПРОДАЖА" else "ОБМЕН"
  let dexview_link := "https://dexview.com/eth/" ++ token_info.address
  let token_name := escape_md token_info.name
  let token_symbol := escape_md token_info.symbol
  let contract_addr := escape_md token_info.address
  let from_addr := escape_md (shorten transaction.from_address)
  let tx_hash := escape_md (shorten transaction.tx_hash)
  let timestamp := escape_md g.timeStr
  let amount8 : String := ⟨(g.floatStr transaction.amount).data.take 8⟩
  let amount_line :=
    if transaction.swap_type = "buy" then
      "💰 *Сумма:* " ++ escape_md amount8 ++ " ETH"
    else if transaction.swap_type = "sell" then
      match transaction.token_amount with
      | some ta =>
        if ta.isPos then
          "💰 *Продано:* " ++ escape_md (g.float4 ta) ++ " " ++ token_symbol ++
            "\n💵 *Мин\\. ETH:* " ++ escape_md amount8 ++ " ETH"
        else "💰 *Сумма:* " ++ escape_md amount8 ++ " ETH"
      | none => "💰 *Сумма:* " ++ escape_md amount8 ++ " ETH"
    else "💰 *Сумма:* " ++ escape_md amount8 ++ " токенов"
  let pool_part :=
    match transaction.pool_address with
    | some p => escape_md p
    | none => "N/A"
  pyStrip
    ("\n" ++ emoji ++ " *" ++ action ++ " ТОКЕНА*\n\n🏷️ *Токен:* " ++ token_name ++
      " \\(" ++ token_symbol ++ "\\)\n📄 *Контракт:* `" ++ contract_addr ++
      "`\n🏊 *Пул:* `" ++ pool_part ++ "`\n" ++ amount_line ++ "\n👤 *От:* `" ++
      from_addr ++ "`\n🔗 *Транзакция:* `" ++ tx_hash ++ "`\n⏰ *Время:* " ++ timestamp ++
      "\n\n📊 [Посмотреть на DexView](" ++ dexview_link ++
      ")\n🔍 [Etherscan](https://etherscan.io/tx/" ++ transaction.tx_hash ++ ")\n        ")

/-- Outcomes of the (up to two) Telegram send attempts the environment would
produce for one message: `first` is the MarkdownV2 attempt, `second` the
plain-text retry. -/
structure TgOracle where
  first : Bool
  second : Bool
deriving Repr, DecidableEq

/-- Model of the plain-text fallback transformation
`message.replace('*', '').replace(chr(96), '').replace(chr(92), '')`
(server.py line 558): all asterisks, backticks and backslashes removed. -/
def stripMarkup (s : String) : String :=
  ⟨s.data.filter fun c => ¬ (c = '*' ∨ c = Char.ofNat 96 ∨ c = '\\')⟩

/-- Result of `send_telegram_message`: the returned boolean, the updated
stats (the function increments `telegram_messages_sent` on a successful
attempt) and the list of message texts actually handed to
`telegram_bot.send_message`, in order. -/
structure SendResult where
  ok : Bool
  stats : MonitorStats
  attempts : List String
deriving Repr, DecidableEq

/-- Model of `send_telegram_message` (server.py lines 541–568): try the
MarkdownV2 message; on failure retry exactly once with markup stripped;
return `True` on the first success, `False` when both attempts failed. -/
def send_telegram_message (o : TgOracle) (message : String) (stats : MonitorStats) :
    SendResult :=
  if o.first then
    { ok := true,
      stats := { stats with telegram_messages_sent := stats.telegram_messages_sent + 1 },
      attempts := [message] }
  else
    let plain_message := stripMarkup message
    if o.second then
      { ok := true,
        stats := { stats with telegram_messages_sent := stats.telegram_messages_sent + 1 },
        attempts := [message, plain_message] }
    else
      { ok := false, stats := stats, attempts := [message, plain_message] }

/-! ## Per-transaction pipeline step (server.py lines 570–619) -/

/-- Environment outcomes one `process_transaction` call can consume: the
metadata-provider responses, whether `db.transactions.insert_one` succeeds
(an insertion failure raises into the function's `except`), the Telegram
attempt outcomes, and the display-formatting oracle. -/
structure Effects where
  providers : Providers
  insert_ok : Bool
  tg : TgOracle
  fmt : FormatOracle

/-- Observable pipeline state threaded through `process_transaction`: the
shared stats counters, the sequence of records persisted to MongoDB, the
records handed to the formatter, and the texts handed to the Telegram API. -/
structure PipelineState where
  stats : MonitorStats
  db : List TransactionData
  fmt_calls : List TransactionData
  tg_attempts : List String

/-- State at session start: zeroed counters, nothing persisted, nothing
sent. -/
def initial_state : PipelineState := ⟨initial_stats, [], [], []⟩

/-- Placeholder metadata used when no token address was extracted
(server.py lines 588–593). -/
def placeholder_token_info : TokenInfo :=
  { symbol := "TOKEN", name := "Unknown Token",
    address := "0x0000000000000000000000000000000000000000", decimals := 18 }

/-- Model of `process_transaction` (server.py lines 570–619): count the
transaction, parse it, enrich with token metadata and pool address, persist,
format, send, and update the success/failure counters.  The one reachable
exception point inside the `try` is the database insertion (`get_token_info`,
`get_pool_address`, `format_telegram_message` and `send_telegram_message` all
catch internally); when it raises, the `except` path increments
`failed_parses` and nothing is persisted or sent. -/
def process_transaction (eff : Effects) (tx_data : TxData) (st : PipelineState) :
    PipelineState :=
  let stats0 := { st.stats with total_transactions := st.stats.total_transactions + 1 }
  match parse_swap_transaction tx_data with
  | none => { st with stats := stats0 }
  | some transaction0 =>
    let token_info :=
      match transaction0.token_address with
      | some ta => get_token_info ta eff.providers
      | none => placeholder_token_info
    let transaction1 :=
      match transaction0.token_address with
      | some ta => { transaction0 with pool_address := get_pool_address ta }
      | none => transaction0
    let transaction :=
      { transaction1 with
        token_address := some token_info.address,
        token_symbol := some token_info.symbol,
        token_name := some token_info.name,
        dexview_link := some ("https://dexview.com/eth/" ++ token_info.address) }
    if eff.insert_ok then
      let message := format_telegram_message eff.fmt transaction token_info
      let r := send_telegram_message eff.tg message stats0
      let stats2 :=
        if r.ok then { r.stats with successful_parses := r.stats.successful_parses + 1 }
        else { r.stats with failed_parses := r.stats.failed_parses + 1 }
      { stats := stats2,
        db := st.db ++ [transaction],
        fmt_calls := st.fmt_calls ++ [transaction],
        tg_attempts := st.tg_attempts ++ r.attempts }
    else
      { st with stats := { stats0 with failed_parses := stats0.failed_parses + 1 } }

/-! ## Subscription frame handling (server.py lines 655–665) -/

/-- One inbound websocket frame, as the ingestion loop classifies it: either
a well-formed notification carrying a `params.result` transaction object, or
anything else (invalid JSON or a frame without `params`/`result`), which is
dropped. -/
inductive SubscriptionFrame where
  | notif (tx : TxData)
  | malformed

/-- One iteration of the inner receive loop (server.py lines 655–665): a
well-formed notification frame is processed, every other frame is dropped
without touching the state. -/
def handle_frame (eff : Effects) (f : SubscriptionFrame) (st : PipelineState) :
    PipelineState :=
  match f with
  | .notif tx_data => process_transaction eff tx_data st
  | .malformed => st

/-- One `process_transaction` call together with the environment outcomes it
consumes. -/
structure Call where
  eff : Effects
  tx : TxData

/-- A sequence of `process_transaction` calls, run left to right. -/
def run_calls (calls : List Call) (st : PipelineState) : PipelineState :=
  calls.foldl (fun s c => process_transaction c.eff c.tx s) st

/-! ## Reference ABI encodings

Standard Uniswap V2 router calldata encodings, used to state what a
well-formed call looks like.  A "buy" call
(`swapExactETHForTokens(uint256,address[],address,uint256)`) has four head
words with the path offset `128` in the second slot, then the path array:
its length followed by one 32-byte word per element.  A "sell" call
(`swapExactTokensForETH(uint256,uint256,address[],address,uint256)`) has
five head words with the path offset `160` in the third slot. -/

/-- A 32-byte ABI word holding `n % 2^256`, big-endian. -/
def abiWord (n : Nat) : List Nat := natToBytesBE 32 n

/-- Well-formed calldata body (after the selector) of a "buy" swap. -/
def encodeBuyCalldata (amountOutMin toAddr deadline : Nat) (path : List Nat) : List Nat :=
  abiWord amountOutMin ++ abiWord 128 ++ abiWord toAddr ++ abiWord deadline ++
    abiWord path.length ++ (path.map abiWord).flatten

/-- Well-formed calldata body (after the selector) of a "sell" swap. -/
def encodeSellCalldata (amountIn amountOutMin toAddr deadline : Nat) (path : List Nat) :
    List Nat :=
  abiWord amountIn ++ abiWord amountOutMin ++ abiWord 160 ++ abiWord toAddr ++
    abiWord deadline ++ abiWord path.length ++ (path.map abiWord).flatten

/-- Hex input string of a transaction: selector characters followed by the
hex rendering of the calldata body. -/
def mkInput (selector : String) (cd : List Nat) : String :=
  ⟨selector.data ++ bytesToHexChars cd⟩

/-- Token address string `"0x"` plus forty lower-case hex characters of the
low-order twenty bytes of `n` — the value the decoder reconstructs from a
path element. -/
def addrHex40 (n : Nat) : String := ⟨'0' :: 'x' :: bytesToHexChars (natToBytesBE 20 n)⟩

/-! ## Concrete inputs used by counterexamples and witnesses -/

/-- USDT mainnet token address as a number. -/
def USDT_NAT : Nat := 0xdac17f958d2ee523a2206206994597c13d831ec7

/-- WETH mainnet token address as a number. -/
def WETH_NAT : Nat := 0xC02aaA39b223FE8D0A0e5C4F27eAD9083C756Cc2

/-- A display-formatting oracle with fixed renderings (the claims never
depend on the rendered text). -/
def fmtO : FormatOracle :=
  { floatStr := fun _ => "0.5", float4 := fun _ => "1.0000", timeStr := "12:00:00" }

/-- Environment in which both metadata providers fail, the database insert
succeeds and the first Telegram attempt succeeds. -/
def effOk : Effects :=
  { providers := { dexscreener := .error (), coingecko := .error () },
    insert_ok := true, tg := { first := true, second := true }, fmt := fmtO }

/-- A well-formed "sell" swap of USDT for WETH addressed to the router:
`swapExactTokensForETH(10^18, 5*10^17, [USDT, WETH], 0x3333, 1700000000)`
with zero attached value. -/
def ctx2 : TxData :=
  { hash := "0x1111111111111111111111111111111111111111111111111111111111111111",
    sender := "0x2222222222222222222222222222222222222222",
    «to» := UNISWAP_V2_ROUTER,
    input := mkInput "0x18cbafe5"
      (encodeSellCalldata (10 ^ 18) (5 * 10 ^ 17) 0x3333 1700000000 [USDT_NAT, WETH_NAT]),
    value := "0x0" }

/-- A transaction to the router with a registered "sell" selector whose
calldata body `"zz"` is not valid hex, so the typed ABI decode fails. -/
def ctx3 : TxData :=
  { hash := "0x3333", sender := "0x4444", «to» := UNISWAP_V2_ROUTER,
    input := ⟨"0x18cbafe5".data ++ ['z', 'z']⟩, value := "0x0" }

/-- A well-formed "buy" swap whose path element at index 1 is the all-zero
address: `swapExactETHForTokens(0, [WETH, 0x0], 0x3333, 1700000000)` with one
ether attached. -/
def ctx5 : TxData :=
  { hash := "0xaaaa", sender := "0xbbbb", «to» := UNISWAP_V2_ROUTER,
    input := mkInput "0x7ff36ab5" (encodeBuyCalldata 0 0x3333 1700000000 [WETH_NAT, 0]),
    value := "0xde0b6b3a7640000" }

/-- A well-formed "buy" swap of one ether for USDT through WETH, addressed
to the router in all-lower-case writing and using the fee-on-transfer buy
selector: `swapExactETHForTokensSupportingFeeOnTransferTokens(0,
[WETH, USDT], 0x3333, 1700000000)`. -/
def ctx5b : TxData :=
  { hash := "0x5555", sender := "0x6666",
    «to» := "0x7a250d5630b4cf539739df2c5dacb4c659f2488d",
    input := mkInput "0x1f00ca74"
      (encodeBuyCalldata 0 0x3333 1700000000 [WETH_NAT, USDT_NAT]),
    value := "0xde0b6b3a7640000" }

/-- A transaction addressed to an address that is not the router. -/
def ctx6 : TxData :=
  { hash := "0x6666", sender := "0x7777",
    «to» := "0x9999999999999999999999999999999999999999",
    input := mkInput "0x7ff36ab5" (encodeBuyCalldata 0 0x3333 1700000000 [WETH_NAT, USDT_NAT]),
    value := "0x1" }

/-- A "buy" transaction to the router with positive value whose 256-character
calldata body starts with the non-hex characters `"zz"`: the typed decode
fails and the heuristic scan picks up a candidate containing `'z'`. -/
def ctx7 : TxData :=
  { hash := "0xcccc", sender := "0xdddd", «to» := UNISWAP_V2_ROUTER,
    input := ⟨"0x7ff36ab5".data ++ ('z' :: 'z' :: List.replicate 254 'a')⟩,
    value := "0x1" }

/-- The non-hex token address the heuristic fallback keeps for `ctx7`. -/
def badAddr7 : String := ⟨'0' :: 'x' :: 'z' :: 'z' :: List.replicate 38 'a'⟩

/-- A "sell" transaction whose calldata body is too short and not valid hex,
so no token address is extracted at all. -/
def ctx8 : TxData :=
  { hash := "0xeeee", sender := "0xffff", «to» := UNISWAP_V2_ROUTER,
    input := ⟨"0x18cbafe5".data ++ ['z', 'z']⟩, value := "0x0" }

/-- A well-formed token address that is in no static table entry. -/
def addr9 : String := "0x1212121212121212121212121212121212121212"

/-! ## Theorems -/

/-- C1: the claim states that `get_pool_address` returns the CREATE2-derived
pair address for every well-formed token address.  The code cannot: the call
`hashlib.keccak256` raises `AttributeError` (Python's hashlib has no such
attribute), the blanket `except` swallows it, and the function returns `None`
on every input, well-formed or not. -/
theorem get_pool_address_always_none (token_address : String) :
    get_pool_address token_address = none := by
  unfold get_pool_address
  split
  · rfl
  · dsimp only
    generalize pyFromHexE (zfill 64 _) = r1
    cases r1 with
    | error e => rfl
    | ok t0 =>
      generalize pyFromHexE (zfill 64 _) = r2
      cases r2 with
      | error e => rfl
      | ok t1 => rfl

/-- C10: `send_telegram_message` first attempts the escaped-markup message;
if that attempt fails it makes exactly one further attempt with the markup
characters stripped to plain text; it returns `True` exactly when one of the
attempts succeeded. -/
theorem telegram_retry_policy (o : TgOracle) (message : String) (stats : MonitorStats) :
    (send_telegram_message o message stats).attempts =
      (if o.first then [message] else [message, stripMarkup message]) ∧
    (send_telegram_message o message stats).ok = (o.first || o.second) := by
  obtain ⟨f, s⟩ := o
  cases f <;> cases s <;> simp [send_telegram_message]

/-- C6: `parse_swap_transaction` returns `None` whenever the input is shorter
than the ten characters holding the selector, or the recipient does not
case-insensitively equal the router address, or the selector is not in the
registry — regardless of the rest of the calldata. -/
theorem parse_rejects_unknown (tx : TxData)
    (h : tx.input.data.length < 10 ∨ pyLower tx.to ≠ pyLower UNISWAP_V2_ROUTER ∨
      sigLookup ⟨tx.input.data.take 10⟩ = none) :
    parse_swap_transaction tx = none := by
  unfold parse_swap_transaction
  rcases h with h | h | h
  · rw [if_pos h]
  · by_cases h10 : tx.input.data.length < 10
    · rw [if_pos h10]
    · rw [if_neg h10, if_pos h]
  · by_cases h10 : tx.input.data.length < 10
    · rw [if_pos h10]
    · rw [if_neg h10]
      by_cases hto : pyLower tx.to ≠ pyLower UNISWAP_V2_ROUTER
      · rw [if_pos hto]
      · rw [if_neg hto]
        simp only [h]

/-- Witness for C6 at a transaction addressed away from the router. -/
theorem parse_rejects_unknown_witness :
    pyLower ctx6.to ≠ pyLower UNISWAP_V2_ROUTER ∧ parse_swap_transaction ctx6 = none :=
  ⟨by decide, parse_rejects_unknown ctx6 (Or.inr (Or.inl (by decide)))⟩

/-- C3: for a transaction addressed to the router with a registered selector
and a parseable value field, `parse_swap_transaction` always returns a
`SwapEvent` carrying the registry's `swap_type` — the calldata-parameter
decode cannot make it raise or return `None`, whatever the calldata body
looks like (the typed decode falls back to the heuristic scan and the
heuristic scan is total). -/
theorem decode_failure_still_yields_event (tx : TxData) (func_info : SwapFunctionSig) (v : Nat)
    (h10 : ¬ tx.input.data.length < 10)
    (hto : pyLower tx.to = pyLower UNISWAP_V2_ROUTER)
    (hsig : sigLookup ⟨tx.input.data.take 10⟩ = some func_info)
    (hval : hexStrToNat? tx.value.data = some v) :
    ∃ ev, parse_swap_transaction tx = some ev ∧ ev.swap_type = func_info.swap_type := by
  unfold parse_swap_transaction
  rw [if_neg h10, if_neg (by simp [hto])]
  simp only [hsig, hval]
  exact ⟨_, rfl, rfl⟩

/-- Witness for C3 at a router transaction with a registered "sell" selector
whose calldata body is not valid hex (the typed decode raises internally). -/
theorem decode_failure_still_yields_event_witness :
    (¬ ctx3.input.data.length < 10) ∧ pyLower ctx3.to = pyLower UNISWAP_V2_ROUTER ∧
    bytesFromHex? (ctx3.input.data.drop 10) = none ∧
    (∃ ev, parse_swap_transaction ctx3 = some ev ∧ ev.swap_type = "sell") :=
  ⟨by decide, by decide, by decide,
   decode_failure_still_yields_event ctx3
     { name := "swapExactTokensForETH",
       inputs := ["uint256", "uint256", "address[]", "address", "uint256"],
       swap_type := "sell" }
     0 (by decide) (by decide) (by decide) (by decide)⟩

/-- C9: when the address is not the native-asset sentinel, passes format
validation, is not in the static table, and neither external provider yields
a usable result, `get_token_info` returns the deterministic placeholder
synthesized from the (lower-cased) address characters alone, with 18
decimals; in particular two calls with the same address under any
provider-failure outcomes return the same record.  (Totality — the function
always returns a `TokenInfo` and never raises — is immediate from the model:
`get_token_info` is a total function into `TokenInfo`.) -/
theorem provider_exhausted_placeholder (token_address : String) (pv : Providers)
    (h0 : token_address.data ≠ [])
    (h1 : token_address ≠ ZERO_ADDR)
    (h2 : token_address.data.length = 42)
    (h3 : startsWith0x token_address = true)
    (h4 : common_tokens.lookup (pyLower token_address) = none)
    (h5 : dexExtract pv.dexscreener (pyLower token_address) = none)
    (h6 : geckoExtract pv.coingecko = none) :
    get_token_info token_address pv = synthPlaceholder (pyLower token_address) ∧
    (get_token_info token_address pv).decimals = 18 ∧
    ∀ pv2 : Providers, dexExtract pv2.dexscreener (pyLower token_address) = none →
      geckoExtract pv2.coingecko = none →
      get_token_info token_address pv2 = get_token_info token_address pv := by
  have key : ∀ q : Providers, dexExtract q.dexscreener (pyLower token_address) = none →
      geckoExtract q.coingecko = none →
      get_token_info token_address q = synthPlaceholder (pyLower token_address) := by
    intro q hq1 hq2
    unfold get_token_info
    rw [if_neg (by simp [List.isEmpty_iff, h0, h1]), if_neg (by simp [h2, h3])]
    simp only [h4, hq1, hq2]
  refine ⟨key pv h5 h6, ?_, fun pv2 hq1 hq2 => (key pv2 hq1 hq2).trans (key pv h5 h6).symm⟩
  rw [key pv h5 h6]
  rfl

/-- Witness for C9 at a fresh address with both providers failing. -/
theorem provider_exhausted_placeholder_witness :
    addr9.data ≠ [] ∧ addr9 ≠ ZERO_ADDR ∧ addr9.data.length = 42 ∧
    startsWith0x addr9 = true ∧ common_tokens.lookup (pyLower addr9) = none ∧
    get_token_info addr9 { dexscreener := .error (), coingecko := .error () } =
      { symbol := "1212", name := "Token 12121212", address := pyLower addr9,
        decimals := 18 } := by
  refine ⟨by decide, by decide, by decide, by decide, by decide, ?_⟩
  have h := provider_exhausted_placeholder addr9
    { dexscreener := .error (), coingecko := .error () }
    (by decide) (by decide) (by decide) (by decide) (by decide) rfl rfl
  rw [h.1]
  decide

/-- Shape of the output of the token-address validation step: either nothing,
or a 42-character string starting with `"0x"` that is not the all-zero
address. -/
theorem validate_shape (o : Option String) :
    validate_token_address o = none ∨
      ∃ s, validate_token_address o = some s ∧ s.data.length = 42 ∧
        startsWith0x s = true ∧ s ≠ ZERO_ADDR := by
  match o with
  | none => exact Or.inl rfl
  | some t =>
    have hdef : validate_token_address (some t) =
        (if t.data.length ≠ 42 ∨ ¬ startsWith0x t then none
         else if t = ZERO_ADDR then none else some t) := rfl
    rw [hdef]
    by_cases hlen : t.data.length ≠ 42 ∨ ¬ startsWith0x t
    · left
      rw [if_pos hlen]
    · have h42 : t.data.length = 42 := by
        by_contra hc
        exact hlen (Or.inl hc)
      have hsw : startsWith0x t = true := by
        by_contra hc
        exact hlen (Or.inr hc)
      by_cases hz : t = ZERO_ADDR
      · left
        rw [if_neg hlen, if_pos hz]
      · right
        exact ⟨t, by rw [if_neg hlen, if_neg hz], h42, hsw, hz⟩

/-- C7 (amended): every `token_address` in a returned `SwapEvent` is either
absent or a string of exactly 42 characters starting with `"0x"` that is not
the all-zero address; the characters after the prefix are however not checked
to be hex digits, so a heuristic-fallback address may contain non-hex
characters, which this claim's counterexample exhibits. -/
theorem token_address_shape (tx : TxData) (ev : TransactionData)
    (h : parse_swap_transaction tx = some ev) :
    ev.token_address = none ∨
      ∃ s, ev.token_address = some s ∧ s.data.length = 42 ∧ startsWith0x s = true ∧
        s ≠ ZERO_ADDR := by
  unfold parse_swap_transaction at h
  by_cases h10 : tx.input.data.length < 10
  · rw [if_pos h10] at h; exact Option.noConfusion h
  rw [if_neg h10] at h
  by_cases hto : pyLower tx.to ≠ pyLower UNISWAP_V2_ROUTER
  · rw [if_pos hto] at h; exact Option.noConfusion h
  rw [if_neg hto] at h
  cases hsig : sigLookup ⟨tx.input.data.take 10⟩ with
  | none =>
    simp only [hsig] at h
    exact Option.noConfusion h
  | some func_info =>
    simp only [hsig] at h
    cases hv : hexStrToNat? tx.value.data with
    | none =>
      simp only [hv] at h
      exact Option.noConfusion h
    | some v =>
      simp only [hv, Option.some.injEq] at h
      rw [← h]
      exact validate_shape _

/-- Counterexample to C7 as stated: on `ctx7` the decoder keeps the
42-character candidate `"0xzz" + 38 * "a"`, which is not a 20-byte hex
address (its third character is not a hex digit), instead of treating the
malformed address as absent. -/
theorem fallback_keeps_nonhex_token_address :
    (parse_swap_transaction ctx7).bind TransactionData.token_address = some badAddr7 ∧
    ((badAddr7.data.drop 2).all fun c => (hexVal c).isSome) = false := by decide

/-- Witness for the amended C7 at `ctx7` and the event it parses to. -/
theorem token_address_shape_witness :
    parse_swap_transaction ctx7 = some
      { tx_hash := "0xcccc", from_address := "0xdddd",
        to_address := "0x7a250d5630b4cf539739df2c5dacb4c659f2488d",
        token_address := some badAddr7, amount := ⟨1, 10 ^ 18⟩, token_amount := none,
        swap_type := "buy" } ∧
    (some badAddr7 = none ∨
      ∃ s, some badAddr7 = some s ∧ s.data.length = 42 ∧ startsWith0x s = true ∧
        s ≠ ZERO_ADDR) := by
  refine ⟨by decide, ?_⟩
  have h := token_address_shape ctx7
    { tx_hash := "0xcccc", from_address := "0xdddd",
      to_address := "0x7a250d5630b4cf539739df2c5dacb4c659f2488d",
      token_address := some badAddr7, amount := ⟨1, 10 ^ 18⟩, token_amount := none,
      swap_type := "buy" }
    (by decide)
  exact h

/-- Counterexample to C5 as stated: `ctx5` is a well-formed "buy" calldata
with a two-element path whose element at index 1 has all-zero low-order
twenty bytes; the decoder discards the zero address, so `token_address` is
absent instead of equalling those twenty bytes. -/
theorem buy_zero_path_counterexample :
    (parse_swap_transaction ctx5).bind TransactionData.token_address = none ∧
    (parse_swap_transaction ctx5).isSome = true := by decide

/-- Stats effect of one `process_transaction` call: the transaction counter
goes up by exactly one, the other counters never decrease, and the combined
success/failure count grows by at most one. -/
theorem process_stats_step (eff : Effects) (tx_data : TxData) (st : PipelineState) :
    (process_transaction eff tx_data st).stats.total_transactions =
      st.stats.total_transactions + 1 ∧
    st.stats.successful_parses ≤ (process_transaction eff tx_data st).stats.successful_parses ∧
    st.stats.failed_parses ≤ (process_transaction eff tx_data st).stats.failed_parses ∧
    st.stats.telegram_messages_sent ≤
      (process_transaction eff tx_data st).stats.telegram_messages_sent ∧
    (process_transaction eff tx_data st).stats.successful_parses +
        (process_transaction eff tx_data st).stats.failed_parses ≤
      st.stats.successful_parses + st.stats.failed_parses + 1 := by
  unfold process_transaction send_telegram_message
  cases hp : parse_swap_transaction tx_data <;>
    cases hins : eff.insert_ok <;>
    cases hf : eff.tg.first <;>
    cases hs : eff.tg.second <;>
    simp [hins, hf, hs] <;>
    omega

/-- Unfolding of `run_calls` on a first call. -/
theorem run_calls_cons (c : Call) (calls : List Call) (st : PipelineState) :
    run_calls (c :: calls) st = run_calls calls (process_transaction c.eff c.tx st) := rfl

/-- Running a concatenation of call sequences runs them in order. -/
theorem run_calls_append (a b : List Call) (st : PipelineState) :
    run_calls (a ++ b) st = run_calls b (run_calls a st) := by
  unfold run_calls
  exact List.foldl_append _ _ _ _

/-- The bound `successful_parses + failed_parses ≤ total_transactions` is
preserved by any sequence of `process_transaction` calls. -/
theorem run_calls_keeps_bound (calls : List Call) (st : PipelineState)
    (h : st.stats.successful_parses + st.stats.failed_parses ≤ st.stats.total_transactions) :
    (run_calls calls st).stats.successful_parses + (run_calls calls st).stats.failed_parses ≤
      (run_calls calls st).stats.total_transactions := by
  induction calls generalizing st with
  | nil => exact h
  | cons c rest ih =>
    rw [run_calls_cons]
    apply ih
    have hstep := process_stats_step c.eff c.tx st
    omega

/-- C4: across every sequence of `process_transaction` calls from session
start, each of the four counters is monotonically non-decreasing from each
call to the next, and `successful_parses + failed_parses ≤
total_transactions` holds after every call. -/
theorem stats_monotone_and_bounded (calls : List Call) (i : Nat) :
    ((run_calls (calls.take i) initial_state).stats.total_transactions ≤
        (run_calls (calls.take (i + 1)) initial_state).stats.total_transactions ∧
      (run_calls (calls.take i) initial_state).stats.successful_parses ≤
        (run_calls (calls.take (i + 1)) initial_state).stats.successful_parses ∧
      (run_calls (calls.take i) initial_state).stats.failed_parses ≤
        (run_calls (calls.take (i + 1)) initial_state).stats.failed_parses ∧
      (run_calls (calls.take i) initial_state).stats.telegram_messages_sent ≤
        (run_calls (calls.take (i + 1)) initial_state).stats.telegram_messages_sent) ∧
    (run_calls (calls.take (i + 1)) initial_state).stats.successful_parses +
        (run_calls (calls.take (i + 1)) initial_state).stats.failed_parses ≤
      (run_calls (calls.take (i + 1)) initial_state).stats.total_transactions := by
  constructor
  · rw [List.take_succ, run_calls_append]
    cases hget : calls[i]? with
    | none =>
      exact ⟨Nat.le_refl _, Nat.le_refl _, Nat.le_refl _, Nat.le_refl _⟩
    | some c =>
      have hstep := process_stats_step c.eff c.tx (run_calls (calls.take i) initial_state)
      have hone : run_calls [c] (run_calls (calls.take i) initial_state) =
          process_transaction c.eff c.tx (run_calls (calls.take i) initial_state) := rfl
      rw [Option.toList_some, hone]
      exact ⟨by omega, by omega, by omega, by omega⟩
  · exact run_calls_keeps_bound _ _ (Nat.le_refl 0)

/-- C8: whatever `process_transaction` persists (and hands to the formatter)
carries a non-null `token_address`; in particular, when the decoder extracted
no token address, the persisted record carries the all-zero placeholder
address with symbol `"TOKEN"` and name `"Unknown Token"`. -/
theorem persisted_events_have_token_address (eff : Effects) (tx_data : TxData)
    (st : PipelineState) :
    ((process_transaction eff tx_data st).db = st.db ∧
      (process_transaction eff tx_data st).fmt_calls = st.fmt_calls) ∨
    ∃ ev, (process_transaction eff tx_data st).db = st.db ++ [ev] ∧
      (process_transaction eff tx_data st).fmt_calls = st.fmt_calls ++ [ev] ∧
      ev.token_address.isSome = true ∧
      ((parse_swap_transaction tx_data).bind TransactionData.token_address = none →
        ev.token_address = some ZERO_ADDR ∧ ev.token_symbol = some "TOKEN" ∧
        ev.token_name = some "Unknown Token") := by
  unfold process_transaction
  cases hp : parse_swap_transaction tx_data with
  | none => exact Or.inl ⟨rfl, rfl⟩
  | some t =>
    cases hins : eff.insert_ok with
    | false =>
      left
      constructor <;> simp [hins]
    | true =>
      right
      simp only [hins, if_true]
      refine ⟨_, rfl, rfl, rfl, ?_⟩
      intro hnone
      rw [Option.some_bind] at hnone
      simp [hnone, placeholder_token_info, ZERO_ADDR]

/-- Witness for C8 at a parsed "sell" transaction from which no token address
could be extracted. -/
theorem persisted_events_have_token_address_witness :
    ((process_transaction effOk ctx8 initial_state).db = initial_state.db ∧
      (process_transaction effOk ctx8 initial_state).fmt_calls = initial_state.fmt_calls) ∨
    ∃ ev, (process_transaction effOk ctx8 initial_state).db = initial_state.db ++ [ev] ∧
      (process_transaction effOk ctx8 initial_state).fmt_calls =
        initial_state.fmt_calls ++ [ev] ∧
      ev.token_address.isSome = true ∧
      ((parse_swap_transaction ctx8).bind TransactionData.token_address = none →
        ev.token_address = some ZERO_ADDR ∧ ev.token_symbol = some "TOKEN" ∧
        ev.token_name = some "Unknown Token") :=
  persisted_events_have_token_address effOk ctx8 initial_state

/-- C2: feeding the well-formed "sell" subscription frame `ctx2` (USDT →
WETH, addressed to the router, registered sell selector) through one pass of
the pipeline persists exactly one record with `swap_type = "sell"` and makes
exactly one delivery attempt — but the persisted `pool_address` is `None`,
not the non-null pool address the claim requires, because
`get_pool_address` returns `None` on every input, as proved for C1. -/
theorem sell_frame_end_to_end :
    ((handle_frame effOk (SubscriptionFrame.notif ctx2) initial_state).db.map
        fun e => (e.swap_type, e.pool_address, e.token_address)) =
      [("sell", none, some "0xdac17f958d2ee523a2206206994597c13d831ec7")] ∧
    (handle_frame effOk (SubscriptionFrame.notif ctx2) initial_state).tg_attempts.length = 1 ∧
    (handle_frame effOk (SubscriptionFrame.notif ctx2) initial_state).stats =
      { total_transactions := 1, successful_parses := 1, failed_parses := 0,
        telegram_messages_sent := 1 } := by
  refine ⟨?_, ?_, ?_⟩ <;> decide

/-- Length of a big-endian byte rendering. -/
theorem natToBytesBE_length (k n : Nat) : (natToBytesBE k n).length = k := by
  induction k generalizing n with
  | zero => rfl
  | succ k ih => simp [natToBytesBE, ih]

/-- Every byte of a big-endian rendering is below 256. -/
theorem natToBytesBE_lt (k n : Nat) : ∀ b ∈ natToBytesBE k n, b < 256 := by
  induction k generalizing n with
  | zero =>
    intro b hb
    exact absurd hb (List.not_mem_nil b)
  | succ k ih =>
    intro b hb
    have hb' : b ∈ natToBytesBE k (n / 256) ++ [n % 256] := hb
    rcases List.mem_append.1 hb' with h1 | h1
    · exact ih (n / 256) b h1
    · have : b = n % 256 := List.mem_singleton.1 h1
      omega

/-- The byte-string fold with an accumulator splits off the accumulator. -/
theorem bytesToNat_acc (l : List Nat) (a : Nat) :
    l.foldl (fun x y => 256 * x + y) a = a * 256 ^ l.length + bytesToNat l := by
  induction l generalizing a with
  | nil => simp [bytesToNat]
  | cons c cs ih =>
    simp only [List.foldl_cons, List.length_cons]
    rw [ih (256 * a + c)]
    have h2 : bytesToNat (c :: cs) = c * 256 ^ cs.length + bytesToNat cs := by
      show cs.foldl _ (256 * 0 + c) = _
      rw [ih (256 * 0 + c)]
      ring_nf
    rw [h2, pow_succ]
    ring

/-- Decoding distributes over byte-string concatenation. -/
theorem bytesToNat_append (a b : List Nat) :
    bytesToNat (a ++ b) = bytesToNat a * 256 ^ b.length + bytesToNat b := by
  show (a ++ b).foldl _ 0 = _
  rw [List.foldl_append, bytesToNat_acc]
  rfl

/-- Value of a one-byte string. -/
theorem bytesToNat_singleton (x : Nat) : bytesToNat [x] = x := by
  simp [bytesToNat]

/-- Decoding a `k`-byte big-endian rendering of `n` yields the low-order `k`
bytes of `n`. -/
theorem bytesToNat_natToBytesBE (k n : Nat) :
    bytesToNat (natToBytesBE k n) = n % 256 ^ k := by
  induction k generalizing n with
  | zero => simp [natToBytesBE, bytesToNat, Nat.mod_one]
  | succ k ih =>
    show bytesToNat (natToBytesBE k (n / 256) ++ [n % 256]) = _
    rw [bytesToNat_append, ih, bytesToNat_singleton]
    have hm : n % (256 * 256 ^ k) = n % 256 + 256 * (n / 256 % 256 ^ k) := Nat.mod_mul
    rw [pow_succ, Nat.mul_comm (256 ^ k) 256]
    simp only [List.length_singleton, pow_one]
    omega

/-- A big-endian rendering splits into high and low parts. -/
theorem natToBytesBE_split (j k n : Nat) :
    natToBytesBE (j + k) n = natToBytesBE j (n / 256 ^ k) ++ natToBytesBE k n := by
  induction k generalizing n with
  | zero => simp [natToBytesBE]
  | succ k ih =>
    show natToBytesBE (j + k) (n / 256) ++ [n % 256] = _
    rw [ih (n / 256), Nat.div_div_eq_div_mul, List.append_assoc]
    congr 2
    rw [pow_succ, Nat.mul_comm (256 ^ k) 256]

/-- A big-endian rendering only depends on the low-order `k` bytes. -/
theorem natToBytesBE_mod (k n : Nat) : natToBytesBE k (n % 256 ^ k) = natToBytesBE k n := by
  induction k generalizing n with
  | zero => rfl
  | succ k ih =>
    show natToBytesBE k (n % 256 ^ (k + 1) / 256) ++ [n % 256 ^ (k + 1) % 256] = _
    have h1 : n % 256 ^ (k + 1) / 256 = n / 256 % 256 ^ k := by
      rw [pow_succ, Nat.mul_comm (256 ^ k) 256]
      exact Nat.mod_mul_right_div_self n 256 (256 ^ k)
    have h2 : n % 256 ^ (k + 1) % 256 = n % 256 :=
      Nat.mod_mod_of_dvd n ⟨256 ^ k, by rw [pow_succ]; ring⟩
    rw [h1, h2, ih (n / 256)]
    rfl

/-- Reading back a rendered hex digit returns the digit value. -/
theorem hexVal_hexDigitChar (d : Nat) (hd : d < 16) : hexVal (hexDigitChar d) = some d := by
  have key : ∀ x : Fin 16, hexVal (hexDigitChar x.val) = some x.val := by decide
  exact key ⟨d, hd⟩

/-- Parsing the hex rendering of a byte string returns the byte string. -/
theorem bytesFromHex?_roundtrip (bs : List Nat) (h : ∀ b ∈ bs, b < 256) :
    bytesFromHex? (bytesToHexChars bs) = some bs := by
  induction bs with
  | nil => rfl
  | cons b rest ih =>
    have hb : b < 256 := h b (List.mem_cons_self _ _)
    show bytesFromHex?
        (hexDigitChar (b / 16 % 16) :: hexDigitChar (b % 16) :: bytesToHexChars rest) =
      some (b :: rest)
    simp only [bytesFromHex?]
    rw [hexVal_hexDigitChar _ (Nat.mod_lt _ (by norm_num)),
      hexVal_hexDigitChar _ (Nat.mod_lt _ (by norm_num)),
      ih (fun x hx => h x (List.mem_cons_of_mem _ hx))]
    have hb16 : 16 * (b / 16 % 16) + b % 16 = b := by
      have : b / 16 % 16 = b / 16 := Nat.mod_eq_of_lt (by omega)
      rw [this]
      omega
    show some ((16 * (b / 16 % 16) + b % 16) :: rest) = some (b :: rest)
    rw [hb16]

/-- Hex rendering doubles the length. -/
theorem bytesToHexChars_length (bs : List Nat) :
    (bytesToHexChars bs).length = 2 * bs.length := by
  induction bs with
  | nil => rfl
  | cons b rest ih =>
    show (byteToHexChars b ++ bytesToHexChars rest).length = _
    rw [List.length_append, ih]
    simp [byteToHexChars]
    omega

/-- An ABI word is 32 bytes long. -/
theorem abiWord_length (n : Nat) : (abiWord n).length = 32 :=
  natToBytesBE_length 32 n

/-- Length of a flattened list of ABI words. -/
theorem flatten_abiWords_length (path : List Nat) :
    ((path.map abiWord).flatten).length = 32 * path.length := by
  induction path with
  | nil => rfl
  | cons p rest ih =>
    show (abiWord p ++ (rest.map abiWord).flatten).length = _
    rw [List.length_append, abiWord_length, ih]
    simp only [List.length_cons]
    omega

/-- Every byte of a well-formed "buy" encoding is below 256. -/
theorem encodeBuy_bytes_lt (a t d : Nat) (path : List Nat) :
    ∀ b ∈ encodeBuyCalldata a t d path, b < 256 := by
  intro b hb
  unfold encodeBuyCalldata at hb
  simp only [List.mem_append] at hb
  rcases hb with ((((hb | hb) | hb) | hb) | hb) | hb
  · exact natToBytesBE_lt 32 a b hb
  · exact natToBytesBE_lt 32 128 b hb
  · exact natToBytesBE_lt 32 t b hb
  · exact natToBytesBE_lt 32 d b hb
  · exact natToBytesBE_lt 32 path.length b hb
  · rcases List.mem_flatten.1 hb with ⟨l, hl, hbl⟩
    rcases List.mem_map.1 hl with ⟨p, hp, rfl⟩
    exact natToBytesBE_lt 32 p b hbl

/-- Length of a well-formed "buy" encoding. -/
theorem encodeBuy_length (a t d : Nat) (path : List Nat) :
    (encodeBuyCalldata a t d path).length = 160 + 32 * path.length := by
  unfold encodeBuyCalldata
  simp only [List.length_append, abiWord_length, flatten_abiWords_length]

/-- Dropping one leading 32-byte word. -/
theorem drop32_append (w rest : List Nat) (hw : w.length = 32) : (w ++ rest).drop 32 = rest :=
  List.drop_left' hw

/-- Taking one leading 32-byte word. -/
theorem take32_append (w rest : List Nat) (hw : w.length = 32) : (w ++ rest).take 32 = w :=
  List.take_left' hw

/-- The last twenty bytes of a 32-byte ABI word are the low-order twenty
bytes of the encoded number. -/
theorem takeLast20_word (n : Nat) : takeLastB 20 (natToBytesBE 32 n) = natToBytesBE 20 n := by
  unfold takeLastB
  rw [natToBytesBE_length]
  show (natToBytesBE 32 n).drop 12 = _
  rw [show (32 : Nat) = 12 + 20 from rfl, natToBytesBE_split]
  exact List.drop_left' (natToBytesBE_length 12 _)

/-- The address the decoder reconstructs from an ABI path word. -/
theorem addr_of_word (n : Nat) : addrOfWordBytes (abiWord n) = addrHex40 n := by
  unfold addrOfWordBytes addrHex40 abiWord
  rw [takeLast20_word]

/-- An `addrHex40` string always has 42 characters. -/
theorem addrHex40_length (n : Nat) : (addrHex40 n).data.length = 42 := by
  show ('0' :: 'x' :: bytesToHexChars (natToBytesBE 20 n)).length = 42
  simp [bytesToHexChars_length, natToBytesBE_length]

/-- An `addrHex40` string always starts with the `0x` prefix. -/
theorem addrHex40_starts (n : Nat) : startsWith0x (addrHex40 n) = true := rfl

/-- The string `addrHex40 n` is the all-zero address exactly when the
low-order twenty bytes of `n` are zero. -/
theorem addrHex40_eq_zero_iff (n : Nat) : addrHex40 n = ZERO_ADDR ↔ n % 256 ^ 20 = 0 := by
  constructor
  · intro h
    have hz : ZERO_ADDR.data = '0' :: 'x' :: bytesToHexChars (natToBytesBE 20 0) := by decide
    have hd : ('0' :: 'x' :: bytesToHexChars (natToBytesBE 20 n) : List Char) =
        '0' :: 'x' :: bytesToHexChars (natToBytesBE 20 0) := by
      have hd0 := congrArg String.data h
      rw [hz] at hd0
      exact hd0
    simp only [List.cons.injEq, true_and] at hd
    have hd2 : bytesToHexChars (natToBytesBE 20 n) = bytesToHexChars (natToBytesBE 20 0) := hd
    have h1 := bytesFromHex?_roundtrip (natToBytesBE 20 n) (natToBytesBE_lt 20 n)
    have h2 := bytesFromHex?_roundtrip (natToBytesBE 20 0) (natToBytesBE_lt 20 0)
    rw [hd2, h2] at h1
    rw [Option.some.injEq] at h1
    have h4 := congrArg bytesToNat h1
    rw [bytesToNat_natToBytesBE, bytesToNat_natToBytesBE, Nat.zero_mod] at h4
    exact h4.symm
  · intro h
    have hb : natToBytesBE 20 n = natToBytesBE 20 0 := by
      conv_lhs => rw [← natToBytesBE_mod 20 n]
      rw [h]
    show (⟨'0' :: 'x' :: bytesToHexChars (natToBytesBE 20 n)⟩ : String) = ZERO_ADDR
    rw [hb]
    decide

/-- Validation outcome on a decoder-reconstructed path address: kept unless
the low-order twenty bytes are all zero. -/
theorem validate_addrHex40 (n : Nat) :
    validate_token_address (some (addrHex40 n)) =
      if n % 2 ^ 160 = 0 then none else some (addrHex40 n) := by
  have hpow : (256 : Nat) ^ 20 = 2 ^ 160 := by norm_num
  have hdef : validate_token_address (some (addrHex40 n)) =
      (if (addrHex40 n).data.length ≠ 42 ∨ ¬ startsWith0x (addrHex40 n) then none
       else if addrHex40 n = ZERO_ADDR then none else some (addrHex40 n)) := rfl
  have hcond : ¬ ((addrHex40 n).data.length ≠ 42 ∨ ¬ startsWith0x (addrHex40 n)) := by
    rw [addrHex40_length, addrHex40_starts]
    simp
  rw [hdef, if_neg hcond]
  by_cases h : n % 2 ^ 160 = 0
  · rw [if_pos ((addrHex40_eq_zero_iff n).2 (by rw [hpow]; exact h)), if_pos h]
  · rw [if_neg (fun hc => h (by rw [← hpow]; exact (addrHex40_eq_zero_iff n).1 hc)), if_neg h]

/-- Value of an ABI word. -/
theorem bytesToNat_abiWord (n : Nat) : bytesToNat (abiWord n) = n % 256 ^ 32 :=
  bytesToNat_natToBytesBE 32 n

/-- Head word 1 of a right-associated word chain. -/
theorem word_one (w1 w2 rest : List Nat) (h1 : w1.length = 32) (h2 : w2.length = 32) :
    word (w1 ++ (w2 ++ rest)) 1 = bytesToNat w2 := by
  unfold word
  rw [Nat.mul_one, drop32_append _ _ h1, take32_append _ _ h2]

/-- Dropping the four 32-byte head words of a "buy" encoding. -/
theorem drop_four_words (w1 w2 w3 w4 rest : List Nat)
    (h1 : w1.length = 32) (h2 : w2.length = 32) (h3 : w3.length = 32) (h4 : w4.length = 32) :
    (w1 ++ (w2 ++ (w3 ++ (w4 ++ rest)))).drop 128 = rest := by
  have ha : w1 ++ (w2 ++ (w3 ++ (w4 ++ rest))) = ((w1 ++ w2) ++ w3) ++ w4 ++ rest := by
    simp [List.append_assoc]
  rw [ha]
  exact List.drop_left' (by simp [List.length_append, h1, h2, h3, h4])

/-- Dropping two leading 32-byte words. -/
theorem drop_two_words (w1 w2 rest : List Nat) (h1 : w1.length = 32) (h2 : w2.length = 32) :
    (w1 ++ (w2 ++ rest)).drop 64 = rest := by
  have ha : w1 ++ (w2 ++ rest) = (w1 ++ w2) ++ rest := (List.append_assoc _ _ _).symm
  rw [ha]
  exact List.drop_left' (by simp [List.length_append, h1, h2])

/-- On a well-formed "buy" encoding with a path of at least two elements, the
buy-branch path extraction recovers exactly the address held in path element
index 1. -/
theorem buy_path_token_wellformed (a t d p0 p1 : Nat) (rest : List Nat)
    (hplen : 2 + rest.length < 2 ^ 256) :
    buy_path_token (encodeBuyCalldata a t d (p0 :: p1 :: rest)) = some (addrHex40 p1) := by
  have hassoc : encodeBuyCalldata a t d (p0 :: p1 :: rest) =
      abiWord a ++ (abiWord 128 ++ (abiWord t ++ (abiWord d ++
        (abiWord (p0 :: p1 :: rest).length ++
          (abiWord p0 ++ (abiWord p1 ++ (rest.map abiWord).flatten)))))) := by
    unfold encodeBuyCalldata
    simp [List.append_assoc]
  have hw1 : word (encodeBuyCalldata a t d (p0 :: p1 :: rest)) 1 = 128 := by
    rw [hassoc, word_one _ _ _ (abiWord_length a) (abiWord_length 128), bytesToNat_abiWord]
    exact Nat.mod_eq_of_lt (by norm_num)
  have hlen : (encodeBuyCalldata a t d (p0 :: p1 :: rest)).length =
      160 + 32 * (2 + rest.length) := by
    rw [encodeBuy_length]
    simp only [List.length_cons]
    omega
  have hdrop : (encodeBuyCalldata a t d (p0 :: p1 :: rest)).drop 128 =
      abiWord (p0 :: p1 :: rest).length ++
        (abiWord p0 ++ (abiWord p1 ++ (rest.map abiWord).flatten)) := by
    rw [hassoc]
    exact drop_four_words _ _ _ _ _ (abiWord_length a) (abiWord_length 128)
      (abiWord_length t) (abiWord_length d)
  have hdlen : (abiWord (p0 :: p1 :: rest).length ++
      (abiWord p0 ++ (abiWord p1 ++ (rest.map abiWord).flatten))).length =
      32 + 32 * (2 + rest.length) := by
    simp only [List.length_append, abiWord_length, flatten_abiWords_length, List.length_cons]
    omega
  have hple : bytesToNat ((abiWord (p0 :: p1 :: rest).length ++
      (abiWord p0 ++ (abiWord p1 ++ (rest.map abiWord).flatten))).take 32) =
      2 + rest.length := by
    rw [take32_append _ _ (abiWord_length _), bytesToNat_abiWord]
    have hl : (p0 :: p1 :: rest).length = 2 + rest.length := by
      simp only [List.length_cons]
      omega
    rw [hl]
    exact Nat.mod_eq_of_lt (by
      have : (256 : Nat) ^ 32 = 2 ^ 256 := by norm_num
      omega)
  have htok : ((abiWord (p0 :: p1 :: rest).length ++
      (abiWord p0 ++ (abiWord p1 ++ (rest.map abiWord).flatten))).drop 64).take 32 =
      abiWord p1 := by
    rw [drop_two_words _ _ _ (abiWord_length _) (abiWord_length _),
      take32_append _ _ (abiWord_length _)]
  unfold buy_path_token
  simp only [hw1, hlen, hdrop]
  rw [if_pos (by omega)]
  simp only [hdlen, hple]
  rw [if_pos (by omega), if_pos (by omega)]
  rw [htok, addr_of_word]

/-- On a well-formed "buy" calldata body, the typed decode succeeds and
yields the path-element-1 address together with the attached native value. -/
theorem decode_buy_wellformed (eth_value : PyFloat) (a t d p0 p1 : Nat) (rest : List Nat)
    (hplen : 2 + rest.length < 2 ^ 256) :
    decode_calldata "buy" eth_value
        (bytesToHexChars (encodeBuyCalldata a t d (p0 :: p1 :: rest))) =
      { token_address := some (addrHex40 p1), amount := eth_value,
        token_amount := none } := by
  unfold decode_calldata
  rw [bytesFromHex?_roundtrip _ (encodeBuy_bytes_lt a t d (p0 :: p1 :: rest))]
  simp only [if_pos rfl]
  have h128 : 128 ≤ (encodeBuyCalldata a t d (p0 :: p1 :: rest)).length := by
    rw [encodeBuy_length]
    omega
  rw [buy_path_token_wellformed a t d p0 p1 rest hplen, if_pos h128, if_pos trivial]

/-- Every key of the selector registry has ten characters. -/
theorem sigLookup_length (s : String) (func_info : SwapFunctionSig)
    (h : sigLookup s = some func_info) : s.data.length = 10 := by
  unfold sigLookup UNISWAP_FUNCTION_SIGS at h
  simp only [List.lookup] at h
  split at h
  · next heq => rw [eq_of_beq heq]; decide
  · split at h
    · next heq => rw [eq_of_beq heq]; decide
    · split at h
      · next heq => rw [eq_of_beq heq]; decide
      · split at h
        · next heq => rw [eq_of_beq heq]; decide
        · split at h
          · next heq => rw [eq_of_beq heq]; decide
          · exact Option.noConfusion h

/-- C5 (amended): for every transaction case-insensitively addressed to the
router whose selector is a registered "buy" signature and whose calldata is a
well-formed ABI body with a path of at least two elements,
`parse_swap_transaction` returns a "buy" `SwapEvent` whose `amount` is the
wei value divided by `10^18`, and whose `token_address` is the low-order
twenty bytes of path element index 1 — unless those twenty bytes are all
zero, in which case `token_address` is absent (the validation step drops the
all-zero address, contrary to the claim as stated, as this claim's
counterexample shows). -/
theorem buy_wellformed_decode (tx : TxData) (sel : String)
    (func_info : SwapFunctionSig)
    (amountOutMin toAddr deadline p0 p1 : Nat) (rest : List Nat) (v : Nat)
    (hto : pyLower tx.to = pyLower UNISWAP_V2_ROUTER)
    (hsig : sigLookup sel = some func_info)
    (hbuy : func_info.swap_type = "buy")
    (hinput : tx.input = mkInput sel
      (encodeBuyCalldata amountOutMin toAddr deadline (p0 :: p1 :: rest)))
    (hval : hexStrToNat? tx.value.data = some v)
    (hplen : 2 + rest.length < 2 ^ 256) :
    ∃ ev,
      parse_swap_transaction tx = some ev ∧
      ev.swap_type = "buy" ∧
      ev.amount = ⟨v, 10 ^ 18⟩ ∧
      ev.token_address = (if p1 % 2 ^ 160 = 0 then none else some (addrHex40 p1)) := by
  have hsellen : sel.data.length = 10 := sigLookup_length sel func_info hsig
  have hdata : tx.input.data = sel.data ++
      bytesToHexChars (encodeBuyCalldata amountOutMin toAddr deadline (p0 :: p1 :: rest)) := by
    rw [hinput]
    rfl
  unfold parse_swap_transaction
  rw [hdata]
  have hlen10 : ¬ (sel.data ++
      bytesToHexChars (encodeBuyCalldata amountOutMin toAddr deadline
        (p0 :: p1 :: rest))).length < 10 := by
    rw [List.length_append, hsellen]
    omega
  rw [if_neg hlen10, if_neg (by simp [hto])]
  have hmid : (⟨(sel.data ++
      bytesToHexChars (encodeBuyCalldata amountOutMin toAddr deadline
        (p0 :: p1 :: rest))).take 10⟩ : String) = sel := by
    rw [List.take_left' hsellen]
  have hdrop10 : (sel.data ++
      bytesToHexChars (encodeBuyCalldata amountOutMin toAddr deadline
        (p0 :: p1 :: rest))).drop 10 =
      bytesToHexChars (encodeBuyCalldata amountOutMin toAddr deadline (p0 :: p1 :: rest)) :=
    List.drop_left' hsellen
  simp only [hmid, hsig, hbuy, hval, hdrop10,
    decode_buy_wellformed ⟨v, 10 ^ 18⟩ amountOutMin toAddr deadline p0 p1 rest hplen,
    validate_addrHex40]
  exact ⟨_, rfl, rfl, rfl, rfl⟩

/-- Witness for the amended C5: a buy of one ether through the path
`[WETH, USDT]`, sent to the router written in lower case and using the
second registered buy selector, decodes to the USDT address and amount
`10^18 / 10^18`. -/
theorem buy_wellformed_decode_witness :
    pyLower ctx5b.to = pyLower UNISWAP_V2_ROUTER ∧
    sigLookup "0x1f00ca74" = some
      { name := "swapExactETHForTokensSupportingFeeOnTransferTokens",
        inputs := ["uint256", "address[]", "address", "uint256"],
        swap_type := "buy" } ∧
    hexStrToNat? ctx5b.value.data = some (10 ^ 18) ∧
    (∃ ev,
      parse_swap_transaction ctx5b = some ev ∧
      ev.swap_type = "buy" ∧
      ev.amount = ⟨10 ^ 18, 10 ^ 18⟩ ∧
      ev.token_address =
        (if USDT_NAT % 2 ^ 160 = 0 then none else some (addrHex40 USDT_NAT))) :=
  ⟨by decide, by decide, by decide,
   buy_wellformed_decode ctx5b "0x1f00ca74"
     { name := "swapExactETHForTokensSupportingFeeOnTransferTokens",
       inputs := ["uint256", "address[]", "address", "uint256"],
       swap_type := "buy" }
     0 0x3333 1700000000 WETH_NAT USDT_NAT [] (10 ^ 18)
     (by decide) (by decide) rfl rfl (by decide) (by decide)⟩
